import Mathlib

/-!
Verification development for the cfn-cr-synapse-tagger repository
(src/set_instance_tags/app.py).

The program is a single event handler: it extracts an instance id from an
inbound lifecycle event, reads the instance tags from the compute API,
resolves the provisioning principal from a well-known tag, derives tags from
the principal user profile and team membership in the directory service,
and writes the combined tag list back onto the instance.

Modelling conventions:
  - External services (EC2 tag query and create, SSM parameter fetch,
    Synapse profile fetch and membership query, the process environment,
    and the JSON decoder) are oracles collected in a `World` structure.
  - Every function that performs outbound calls returns its result paired
    with the ordered list of outbound calls it issued (`List Call`).
  - Python exceptions are modelled by `AppError`, whose constructors are
    the three classes of the error taxonomy in the specification; each
    raise site notes the Python exception raised by the source and the
    class the taxonomy assigns to that failure scenario.
  - Tag values and profile field values are modelled as strings, matching
    the documented interface shapes of the external services.
-/

/-- A tag: one key/value pair, as the Python dict with keys Key and Value. -/
structure Tag where
  Key : String
  Value : String
  deriving DecidableEq, Repr

/-- Error model. The source raises plain Python exceptions; the constructors
are the three classes of the specification taxonomy, and every raise site
below records which Python exception it translates. -/
inductive AppError where
  | configurationError (msg : String)
  | dataError (msg : String)
  | upstreamError (msg : String)
  deriving DecidableEq, Repr

/-- One outbound call made by the handler, with its request payload. -/
inductive Call where
  | describeTags (resourceId : String)
  | getUserProfile (synapseId : String)
  | getParameter (name : Option String)
  | getMembershipStatus (synapseId : String) (teamId : String)
  | createTags (resources : List String) (tags : List Tag)
  deriving DecidableEq, Repr

/-- Response of the EC2 describe_tags call: the Tags field may be absent
(`none`) or present with a list of tags. -/
structure DescribeTagsResponse where
  Tags : Option (List Tag)
  deriving DecidableEq, Repr

/-- Oracles for the external collaborators. `describeTags` models the EC2
describe_tags call keyed by the resource id filter; `getUserProfile` models
syn.getUserProfile and returns the profile as an ordered field/value mapping;
`env` models os.getenv; `getParameter` models the SSM client get_parameter
call (the returned string is the Parameter.Value field of the response; a
`none` name models forwarding an unset environment value, on which the boto
client itself fails client-side before any network call); `loads` models
json.loads of the roster value: it returns the decoded array of objects
(each object an ordered string mapping) or a dataError for a value that does
not parse as that structure (a JSONDecodeError, classified by the taxonomy
as a malformed roster payload); `membership` models the isMember field of
syn.get_membership_status; `createTags` models the EC2 create_tags call. -/
structure World where
  describeTags : String → Except AppError DescribeTagsResponse
  getUserProfile : String → Except AppError (List (String × String))
  env : String → Option String
  getParameter : Option String → Except AppError String
  loads : String → Except AppError (List (List (String × String)))
  membership : String → String → Bool
  createTags : List String → List Tag → Except AppError Unit

/-- Event payload: the ResourceProperties mapping sent to the handler.
Events lacking the ResourceProperties mapping altogether crash the source
with an attribute error before reaching the InstanceId check and are outside
this model. -/
structure Event where
  ResourceProperties : List (String × String)
  deriving DecidableEq, Repr

def MISSING_INSTANCE_ID_ERROR_MESSAGE : String := "InstanceId parameter is required"

def SYNAPSE_TAG_PREFIX : String := "synapse"

/-- Embeds get_instance_id: reads InstanceId from the event resource
properties; a missing key models dict.get returning None, and the falsy
check `not instance_id` is true for both None and the empty string. The
raised ValueError (missing required input) is the taxonomy class
ConfigurationError. -/
def get_instance_id (event : Event) : Except AppError String :=
  match event.ResourceProperties.lookup "InstanceId" with
  | none => .error (.configurationError MISSING_INSTANCE_ID_ERROR_MESSAGE)
  | some instance_id =>
    if instance_id = "" then
      .error (.configurationError MISSING_INSTANCE_ID_ERROR_MESSAGE)
    else
      .ok instance_id

/-- Python repr of one tag dict, used in the no-tags error message. -/
def pyStrTag (t : Tag) : String :=
  "\x7b\x27Key\x27: \x27" ++ t.Key ++ "\x27, \x27Value\x27: \x27" ++ t.Value ++ "\x27\x7d"

/-- Python repr of a tag list. -/
def pyStrTagList (ts : List Tag) : String :=
  "[" ++ String.intercalate ", " (ts.map pyStrTag) ++ "]"

/-- Python repr of the describe_tags response, used in the no-tags error
message f-string. -/
def pyStrResponse (r : DescribeTagsResponse) : String :=
  match r.Tags with
  | none => "\x7b\x7d"
  | some ts => "\x7b\x27Tags\x27: " ++ pyStrTagList ts ++ "\x7d"

/-- Embeds get_instance_tags: issues the describe_tags call and checks the
Tags field; `not tags or len(tags) == 0` is true when the field is absent or
the list is empty. The raised Exception (call succeeded but returned zero
tags) is the taxonomy class DataError. -/
def get_instance_tags (w : World) (instance_id : String) :
    Except AppError (List Tag) × List Call :=
  match w.describeTags instance_id with
  | .error e => (.error e, [Call.describeTags instance_id])
  | .ok response =>
    match response.Tags with
    | none =>
      (.error (.dataError ("No tags returned, received: " ++ pyStrResponse response)),
       [Call.describeTags instance_id])
    | some [] =>
      (.error (.dataError ("No tags returned, received: " ++ pyStrResponse response)),
       [Call.describeTags instance_id])
    | some tags => (.ok tags, [Call.describeTags instance_id])

def principal_arn_tag : String := "aws:servicecatalog:provisioningPrincipalArn"

/-- Embeds the Python str.split with separator "/" over the character list
of the value: recursion mirrors the left-to-right scan and never produces an
empty list. -/
def splitOnSlashAux : List Char → List Char → List String
  | [], acc => [String.mk acc.reverse]
  | c :: cs, acc =>
    if c = '/' then String.mk acc.reverse :: splitOnSlashAux cs []
    else splitOnSlashAux cs (c :: acc)

def pySplitSlash (s : String) : List String :=
  splitOnSlashAux s.toList []

/-- Embeds get_principal_id: scans the tags in order for the principal arn
key; on the first match returns value.split("/")[-1] (the [-1] index of the
never-empty split result is getLastD). The for/else raise of ValueError (no
provisioning-principal tag present) is the taxonomy class DataError. -/
def get_principal_id : List Tag → Except AppError String
  | [] => .error (.dataError "Could not derive a provisioningPrincipalArn from tags")
  | tag :: rest =>
    if tag.Key = principal_arn_tag then
      .ok ((pySplitSlash tag.Value).getLastD "")
    else
      get_principal_id rest

/-- Embeds get_synapse_user_profile: one getUserProfile call against the
directory service. -/
def get_synapse_user_profile (w : World) (synapse_id : String) :
    Except AppError (List (String × String)) × List Call :=
  (w.getUserProfile synapse_id, [Call.getUserProfile synapse_id])

/-- Embeds the item["teamId"] extraction loop of get_synapse_team_ids over
the decoded roster: a missing teamId key raises KeyError (malformed roster
payload, taxonomy class DataError). -/
def extract_team_ids : List (List (String × String)) → Except AppError (List String)
  | [] => .ok []
  | item :: rest =>
    match item.lookup "teamId" with
    | none => .error (.dataError "KeyError: teamId")
    | some team_id =>
      match extract_team_ids rest with
      | .error e => .error e
      | .ok team_ids => .ok (team_id :: team_ids)

/-- Embeds get_synapse_team_ids: reads the environment setting (with no
presence check), forwards it, set or not, to the SSM get_parameter call,
JSON-decodes the returned value and extracts the teamId of each entry. Every
failure of the oracles or of the extraction is propagated unchanged. -/
def get_synapse_team_ids (w : World) : Except AppError (List String) × List Call :=
  let teamToRoleArnMap := w.env "TEAM_TO_ROLE_ARN_MAP_PARAM_NAME"
  match w.getParameter teamToRoleArnMap with
  | .error e => (.error e, [Call.getParameter teamToRoleArnMap])
  | .ok value =>
    match w.loads value with
    | .error e => (.error e, [Call.getParameter teamToRoleArnMap])
    | .ok team_to_role_arn_map =>
      match extract_team_ids team_to_role_arn_map with
      | .error e => (.error e, [Call.getParameter teamToRoleArnMap])
      | .ok team_ids => (.ok team_ids, [Call.getParameter teamToRoleArnMap])

/-- Embeds get_synapse_user_team_id: queries membership status for each team
id in roster order and returns the first one whose isMember is true; the
loop returns (Python None, here `none`) when no team matches. The call list
records the membership queries actually issued. -/
def get_synapse_user_team_id (w : World) (synapse_id : String) :
    List String → Option String × List Call
  | [] => (none, [])
  | team_id :: rest =>
    if w.membership synapse_id team_id then
      (some team_id, [Call.getMembershipStatus synapse_id team_id])
    else
      match get_synapse_user_team_id w synapse_id rest with
      | (r, calls) => (r, Call.getMembershipStatus synapse_id team_id :: calls)

/-- Accumulator loop of get_synapse_user_profile_tags, mirroring the Python
for loop: skip ignored keys; for key userName first append the two derived
email tags, then always append the generic prefixed tag. -/
def profile_tags_go (ignore_keys : List String) :
    List (String × String) → List Tag → List Tag
  | [], tags => tags
  | (key, value) :: rest, tags =>
    if key ∈ ignore_keys then
      profile_tags_go ignore_keys rest tags
    else
      let tags :=
        if key = "userName" then
          tags ++ [⟨ SYNAPSE_TAG_PREFIX ++ ":email", value ++ "@synapse.org"⟩,
                   ⟨"OwnerEmail", value ++ "@synapse.org"⟩]
        else tags
      profile_tags_go ignore_keys rest (tags ++ [⟨ SYNAPSE_TAG_PREFIX ++ ":" ++ key, value⟩])

/-- Embeds get_synapse_user_profile_tags with its default ignore_keys
argument ["createdOn"]. -/
def get_synapse_user_profile_tags (user_profile : List (String × String))
    (ignore_keys : List String := ["createdOn"]) : List Tag :=
  profile_tags_go ignore_keys user_profile []

/-- Embeds get_synapse_user_team_tags: appends one synapse:teamId tag when a
team was resolved, nothing otherwise. -/
def get_synapse_user_team_tags (w : World) (synapse_id : String)
    (synapse_team_ids : List String) : List Tag × List Call :=
  match get_synapse_user_team_id w synapse_id synapse_team_ids with
  | (none, calls) => ([], calls)
  | (some user_team_id, calls) =>
    ([⟨ SYNAPSE_TAG_PREFIX ++ ":teamId", user_team_id⟩], calls)

/-- Embeds get_synapse_tags: profile fetch, profile tags with the default
ignore set, roster fetch, team tags; result is the profile tags concatenated
with the team tags. -/
def get_synapse_tags (w : World) (synapse_id : String) :
    Except AppError (List Tag) × List Call :=
  match get_synapse_user_profile w synapse_id with
  | (.error e, calls1) => (.error e, calls1)
  | (.ok user_profile, calls1) =>
    let synapse_user_tags := get_synapse_user_profile_tags user_profile
    match get_synapse_team_ids w with
    | (.error e, calls2) => (.error e, calls1 ++ calls2)
    | (.ok synapse_team_ids, calls2) =>
      match get_synapse_user_team_tags w synapse_id synapse_team_ids with
      | (synapse_team_tags, calls3) =>
        (.ok (synapse_user_tags ++ synapse_team_tags), calls1 ++ calls2 ++ calls3)

/-- Embeds create_or_update: the sequential pipeline, aborting on the first
failure, ending with the single create_tags write call. -/
def create_or_update (w : World) (event : Event) (_context : Unit) :
    Except AppError Unit × List Call :=
  match get_instance_id event with
  | .error e => (.error e, [])
  | .ok instance_id =>
    match get_instance_tags w instance_id with
    | (.error e, calls1) => (.error e, calls1)
    | (.ok instance_tags, calls1) =>
      match get_principal_id instance_tags with
      | .error e => (.error e, calls1)
      | .ok principal_id =>
        match get_synapse_tags w principal_id with
        | (.error e, calls2) => (.error e, calls1 ++ calls2)
        | (.ok synapse_tags, calls2) =>
          match w.createTags [instance_id] synapse_tags with
          | .error e =>
            (.error e, calls1 ++ calls2 ++ [Call.createTags [instance_id] synapse_tags])
          | .ok _ =>
            (.ok (), calls1 ++ calls2 ++ [Call.createTags [instance_id] synapse_tags])

/-- Embeds delete: the body is pass, so the invocation succeeds and makes no
outbound calls. -/
def delete (_event : Event) (_context : Unit) : Except AppError Unit × List Call :=
  (.ok (), [])

inductive RequestType where
  | Create
  | Update
  | Delete
  deriving DecidableEq, Repr

/-- Modelled from the spec: the crhelper lifecycle dispatch (not under src/)
routes create and update events to create_or_update and delete events to
delete. -/
def handler (w : World) (requestType : RequestType) (event : Event) :
    Except AppError Unit × List Call :=
  match requestType with
  | .Create => create_or_update w event ()
  | .Update => create_or_update w event ()
  | .Delete => delete event ()

/-! Spec-side definitions used for refinement comparisons, and concrete
worlds used to exercise the model on closed inputs. -/

/-- Spec-side restatement of the profile-to-tags mapping, following the
specification words: iterating profile fields in their natural order, every
field not in the ignore set contributes the generic tag synapse:<fieldName>,
preceded, when the field is userName, by the two derived email tags. -/
def profileTagsOfSpec : List (String × String) → List String → List Tag
  | [], _ => []
  | (key, value) :: rest, ignore_keys =>
    (if key ∈ ignore_keys then []
     else
       (if key = "userName" then
          [⟨"synapse:email", value ++ "@synapse.org"⟩,
           ⟨"OwnerEmail", value ++ "@synapse.org"⟩]
        else []) ++ [⟨"synapse:" ++ key, value⟩])
    ++ profileTagsOfSpec rest ignore_keys

/-- Spec-side list of only the generic prefixed tags of the non-ignored
fields, with no email derivation at all. -/
def genericTagsOfSpec : List (String × String) → List String → List Tag
  | [], _ => []
  | (key, value) :: rest, ignore_keys =>
    (if key ∈ ignore_keys then [] else [⟨"synapse:" ++ key, value⟩])
    ++ genericTagsOfSpec rest ignore_keys

/-- Recognizer for results that are a ConfigurationError. -/
def isConfigurationErrorResult {α : Type} : Except AppError α → Bool
  | .error (.configurationError _) => true
  | _ => false

/-- Recognizer for the tag-write call. -/
def isCreateTagsCall : Call → Bool
  | .createTags _ _ => true
  | _ => false

/-- A world whose oracles all decline: used to exercise paths that must not
depend on any outbound response. -/
def trivialWorld : World where
  describeTags := fun _ => .error (.upstreamError "unavailable")
  getUserProfile := fun _ => .error (.upstreamError "unavailable")
  env := fun _ => none
  getParameter := fun _ => .error (.upstreamError "unavailable")
  loads := fun _ => .error (.dataError "JSONDecodeError: Expecting value")
  membership := fun _ _ => false
  createTags := fun _ _ => .ok ()

/-- World for the roster-fetch analysis with the environment setting unset.
Its parameter-store oracle models the boto ssm client: calling get_parameter
with Name=None fails client-side with ParamValidationError before any
network request, and the source forwards the unset environment value with no
presence check of its own. -/
def w7 : World where
  describeTags := fun _ => .error (.upstreamError "unavailable")
  getUserProfile := fun _ => .error (.upstreamError "unavailable")
  env := fun _ => none
  getParameter := fun name =>
    match name with
    | none => .error (.upstreamError
        "ParamValidationError: Invalid type for parameter Name, value: None")
    | some _ => .ok "[]"
  loads := fun _ => .ok []
  membership := fun _ _ => false
  createTags := fun _ _ => .ok ()

/-- World for the roster-fetch analysis where the parameter is present but
its value does not parse: json.loads raises JSONDecodeError, a ValueError
classified by the taxonomy as DataError (malformed roster payload). -/
def wParse : World :=
  { trivialWorld with
    env := fun _ => some "/service-catalog/TeamToRoleArnMap"
    getParameter := fun _ => .ok "oops"
    loads := fun _ => .error (.dataError "JSONDecodeError: Expecting value") }

/-- World returning a successful describe_tags response with an empty tag
list. -/
def wEmptyTags : World :=
  { trivialWorld with describeTags := fun _ => .ok ⟨some []⟩ }

/-- The JSON text of the roster parameter used in the end-to-end scenario. -/
def c1RosterJson : String :=
  "[\x7b\"teamId\": \"t1\", \"roleArn\": \"arn:aws:iam::123:role/t1\"\x7d]"

/-- The create/update event of the end-to-end scenario. -/
def c1Event : Event := ⟨[("InstanceId", "i-1")]⟩

/-- The tag list the end-to-end scenario must write back. -/
def c1ExpectedTags : List Tag :=
  [⟨"synapse:email", "bob@synapse.org"⟩, ⟨"OwnerEmail", "bob@synapse.org"⟩,
   ⟨"synapse:userName", "bob"⟩, ⟨"synapse:teamId", "t1"⟩]

/-- Oracles of the end-to-end scenario: the tag query returns one
provisioning-principal tag resolving to bob, the profile is
\x7b"userName": "bob"\x7d, the roster holds the single team t1 and bob is a
member of t1. -/
def c1World : World where
  describeTags := fun rid =>
    if rid = "i-1" then
      .ok ⟨some [⟨"aws:servicecatalog:provisioningPrincipalArn",
                  "arn:aws:sts::123:assumed-role/ServiceCatalogEndusers/bob"⟩]⟩
    else .error (.upstreamError "InvalidInstanceID.NotFound")
  getUserProfile := fun sid =>
    if sid = "bob" then .ok [("userName", "bob")]
    else .error (.upstreamError "SynapseHTTPError: 404")
  env := fun name =>
    if name = "TEAM_TO_ROLE_ARN_MAP_PARAM_NAME" then
      some "/service-catalog/TeamToRoleArnMap"
    else none
  getParameter := fun name =>
    if name = some "/service-catalog/TeamToRoleArnMap" then .ok c1RosterJson
    else .error (.upstreamError "ParameterNotFound")
  loads := fun v =>
    if v = c1RosterJson then
      .ok [[("teamId", "t1"), ("roleArn", "arn:aws:iam::123:role/t1")]]
    else .error (.dataError "JSONDecodeError: Expecting value")
  membership := fun sid tid => sid = "bob" && tid = "t1"
  createTags := fun _ _ => .ok ()

/-! Helper lemmas. -/

theorem tag_key_email_eq : SYNAPSE_TAG_PREFIX ++ ":email" = "synapse:email" := rfl

theorem tag_key_generic_eq (k : String) :
    SYNAPSE_TAG_PREFIX ++ ":" ++ k = "synapse:" ++ k := rfl

theorem tag_key_teamId_eq : SYNAPSE_TAG_PREFIX ++ ":teamId" = "synapse:teamId" := rfl

theorem synapse_key_ne_OwnerEmail (k : String) : "synapse:" ++ k ≠ "OwnerEmail" := by
  intro h
  have h2 := congrArg String.data h
  rw [String.data_append] at h2
  have hs : ("synapse:" : String).data = ['s', 'y', 'n', 'a', 'p', 's', 'e', ':'] := rfl
  have ho : ("OwnerEmail" : String).data =
      ['O', 'w', 'n', 'e', 'r', 'E', 'm', 'a', 'i', 'l'] := rfl
  rw [hs, ho] at h2
  simp at h2

theorem profile_tags_go_spec (ignore_keys : List String) (up : List (String × String))
    (acc : List Tag) :
    profile_tags_go ignore_keys up acc = acc ++ profileTagsOfSpec up ignore_keys := by
  induction up generalizing acc with
  | nil => simp [profile_tags_go, profileTagsOfSpec]
  | cons kv rest ih =>
    obtain ⟨key, value⟩ := kv
    by_cases hig : key ∈ ignore_keys
    · simp [profile_tags_go, profileTagsOfSpec, hig, ih]
    · by_cases hun : key = "userName"
      · subst hun
        simp [profile_tags_go, profileTagsOfSpec, hig, ih, tag_key_email_eq,
              tag_key_generic_eq]
      · simp [profile_tags_go, profileTagsOfSpec, hig, hun, ih, tag_key_generic_eq]

theorem profileTagsOfSpec_userName_ignored (up : List (String × String))
    (ignore_keys : List String) (h : "userName" ∈ ignore_keys) :
    profileTagsOfSpec up ignore_keys = genericTagsOfSpec up ignore_keys := by
  induction up with
  | nil => rfl
  | cons kv rest ih =>
    obtain ⟨key, value⟩ := kv
    by_cases hig : key ∈ ignore_keys
    · simp [profileTagsOfSpec, genericTagsOfSpec, hig, ih]
    · have hun : key ≠ "userName" := fun he => hig (he ▸ h)
      simp [profileTagsOfSpec, genericTagsOfSpec, hig, hun, ih]

theorem genericTagsOfSpec_no_OwnerEmail (up : List (String × String))
    (ignore_keys : List String) :
    ∀ t ∈ genericTagsOfSpec up ignore_keys, t.Key ≠ "OwnerEmail" := by
  induction up with
  | nil => intro t ht; simp [genericTagsOfSpec] at ht
  | cons kv rest ih =>
    obtain ⟨key, value⟩ := kv
    intro t ht
    by_cases hig : key ∈ ignore_keys
    · simp [genericTagsOfSpec, hig] at ht
      exact ih t ht
    · simp [genericTagsOfSpec, hig] at ht
      rcases ht with ht | ht
      · rw [ht]
        exact synapse_key_ne_OwnerEmail key
      · exact ih t ht

/-- Claim C2: for every user profile and ignore set, iterating profile
fields in their natural order, every field not in the ignore set yields a
tag synapse:<fieldName> = field value; when the field is userName, the two
extra tags synapse:email and OwnerEmail, both valued <value>@synapse.org,
are emitted immediately before the generic synapse:userName tag. In
particular, the profile [userName = alice, createdOn = 2020-01-01] with the
default ignore set yields exactly the three tags of the claim. -/
theorem C2_profile_to_tags_mapping :
    (∀ (user_profile : List (String × String)) (ignore_keys : List String),
       get_synapse_user_profile_tags user_profile ignore_keys =
         profileTagsOfSpec user_profile ignore_keys)
    ∧ get_synapse_user_profile_tags [("userName", "alice"), ("createdOn", "2020-01-01")] =
        [⟨"synapse:email", "alice@synapse.org"⟩, ⟨"OwnerEmail", "alice@synapse.org"⟩,
         ⟨"synapse:userName", "alice"⟩] := by
  constructor
  · intro user_profile ignore_keys
    unfold get_synapse_user_profile_tags
    rw [profile_tags_go_spec]
    simp
  · rfl

/-- Claim C5 counterexample: with userName in the ignore set, a profile
field literally named email still yields a tag whose key is synapse:email
through the generic rule, so the claim that no synapse:email tag is ever
produced fails on the profile [email = x] with ignore set [userName]. -/
theorem C5_counterexample :
    "userName" ∈ ["userName"]
    ∧ get_synapse_user_profile_tags [("email", "x")] ["userName"] =
        [⟨"synapse:email", "x"⟩] := by
  exact ⟨List.mem_singleton.mpr rfl, rfl⟩

/-- Claim C5 (amended): for every profile, if userName is in the ignore set
then email derivation is fully suppressed: the output is exactly the generic
synapse:<fieldName> tags of the non-ignored fields (so the only way a
synapse:email key can appear is a profile field literally named email) and
no OwnerEmail tag is produced; in particular the profile [userName = alice]
with ignore set [userName] yields the empty tag list. -/
theorem C5_userName_ignored_amended (user_profile : List (String × String))
    (ignore_keys : List String) (h : "userName" ∈ ignore_keys) :
    get_synapse_user_profile_tags user_profile ignore_keys =
      genericTagsOfSpec user_profile ignore_keys
    ∧ (∀ t ∈ get_synapse_user_profile_tags user_profile ignore_keys,
        t.Key ≠ "OwnerEmail")
    ∧ get_synapse_user_profile_tags [("userName", "alice")] ["userName"] = [] := by
  have hchar : get_synapse_user_profile_tags user_profile ignore_keys =
      genericTagsOfSpec user_profile ignore_keys := by
    unfold get_synapse_user_profile_tags
    rw [profile_tags_go_spec]
    simp [profileTagsOfSpec_userName_ignored user_profile ignore_keys h]
  refine ⟨hchar, ?_, rfl⟩
  rw [hchar]
  exact genericTagsOfSpec_no_OwnerEmail user_profile ignore_keys

/-- Claim C5 amended witness: the amended theorem applied to the profile
[userName = alice, email = x] with ignore set [userName]. -/
theorem C5_userName_ignored_amended_witness :
    get_synapse_user_profile_tags [("userName", "alice"), ("email", "x")] ["userName"] =
      genericTagsOfSpec [("userName", "alice"), ("email", "x")] ["userName"]
    ∧ (∀ t ∈ get_synapse_user_profile_tags [("userName", "alice"), ("email", "x")]
        ["userName"], t.Key ≠ "OwnerEmail")
    ∧ get_synapse_user_profile_tags [("userName", "alice")] ["userName"] = [] :=
  C5_userName_ignored_amended [("userName", "alice"), ("email", "x")] ["userName"]
    (List.mem_singleton.mpr rfl)

/-- Claim C3: the principal resolver returns the substring after the final
slash of the value of the first tag keyed
aws:servicecatalog:provisioningPrincipalArn (earlier tags with other keys
are skipped), fails with the DataError message of the claim when no tag has
that key, and resolves the concrete arn of the claim to alice. -/
theorem C3_principal_resolver :
    (∀ (pre post : List Tag) (t : Tag),
       (∀ u ∈ pre, u.Key ≠ principal_arn_tag) → t.Key = principal_arn_tag →
       get_principal_id (pre ++ t :: post) =
         .ok ((pySplitSlash t.Value).getLastD ""))
    ∧ (∀ tags : List Tag, (∀ u ∈ tags, u.Key ≠ principal_arn_tag) →
       get_principal_id tags =
         .error (.dataError "Could not derive a provisioningPrincipalArn from tags"))
    ∧ get_principal_id
        [⟨principal_arn_tag, "arn:aws:sts::123:assumed-role/X/alice"⟩] = .ok "alice" := by
  refine ⟨?_, ?_, rfl⟩
  · intro pre post t hpre ht
    induction pre with
    | nil => simp [get_principal_id, ht]
    | cons u rest ih =>
      have hu : u.Key ≠ principal_arn_tag := hpre u (List.mem_cons_self u rest)
      have hrest : ∀ v ∈ rest, v.Key ≠ principal_arn_tag :=
        fun v hv => hpre v (List.mem_cons_of_mem u hv)
      simp [get_principal_id, hu, ih hrest]
  · intro tags htags
    induction tags with
    | nil => rfl
    | cons u rest ih =>
      have hu : u.Key ≠ principal_arn_tag := htags u (List.mem_cons_self u rest)
      have hrest : ∀ v ∈ rest, v.Key ≠ principal_arn_tag :=
        fun v hv => htags v (List.mem_cons_of_mem u hv)
      simp [get_principal_id, hu, ih hrest]

/-- Claim C3 witness: the resolver theorem applied to a tag list whose first
tag has another key and whose second tag carries the concrete arn, and to a
tag list with no matching key. -/
theorem C3_principal_resolver_witness :
    get_principal_id
        [⟨"Name", "dev"⟩, ⟨principal_arn_tag, "arn:aws:sts::123:assumed-role/X/alice"⟩] =
      .ok "alice"
    ∧ get_principal_id [⟨"Name", "dev"⟩] =
        .error (.dataError "Could not derive a provisioningPrincipalArn from tags") := by
  constructor
  · exact C3_principal_resolver.1 [⟨"Name", "dev"⟩] []
      ⟨principal_arn_tag, "arn:aws:sts::123:assumed-role/X/alice"⟩
      (by intro u hu; simp at hu; rw [hu]; decide) rfl
  · exact C3_principal_resolver.2.1 [⟨"Name", "dev"⟩]
      (by intro u hu; simp at hu; rw [hu]; decide)

/-- First component of get_synapse_user_team_id is the first roster entry
whose membership query answers true. -/
theorem user_team_id_fst_eq_find (w : World) (synapse_id : String)
    (roster : List String) :
    (get_synapse_user_team_id w synapse_id roster).1 =
      roster.find? (fun t => w.membership synapse_id t) := by
  induction roster with
  | nil => rfl
  | cons team_id rest ih =>
    by_cases hm : w.membership synapse_id team_id
    · simp [get_synapse_user_team_id, hm, List.find?]
    · simp [get_synapse_user_team_id, hm, List.find?, ih]

/-- The membership queries issued by get_synapse_user_team_id are exactly
the roster entries up to and including the first match (all entries when
there is no match). -/
theorem user_team_id_calls_eq (w : World) (synapse_id : String)
    (roster : List String) :
    (get_synapse_user_team_id w synapse_id roster).2 =
      (roster.takeWhile (fun t => !(w.membership synapse_id t))).map
        (Call.getMembershipStatus synapse_id) ++
      (match roster.find? (fun t => w.membership synapse_id t) with
       | some t => [Call.getMembershipStatus synapse_id t]
       | none => []) := by
  induction roster with
  | nil => rfl
  | cons team_id rest ih =>
    by_cases hm : w.membership synapse_id team_id
    · simp [get_synapse_user_team_id, hm, List.find?, List.takeWhile]
    · simp [get_synapse_user_team_id, hm, List.find?, List.takeWhile, ih]

/-- Claim C4: membership is queried in roster order and the first matching
team wins; the queries actually issued stop at the first match; when no team
matches (in particular on the empty roster) the resolver returns none, not
an error; and the team tag list is one synapse:teamId tag for the resolved
team, empty otherwise. -/
theorem C4_team_membership_resolution (w : World) (synapse_id : String)
    (roster : List String) :
    (get_synapse_user_team_id w synapse_id roster).1 =
      roster.find? (fun t => w.membership synapse_id t)
    ∧ (get_synapse_user_team_id w synapse_id roster).2 =
        (roster.takeWhile (fun t => !(w.membership synapse_id t))).map
          (Call.getMembershipStatus synapse_id) ++
        (match roster.find? (fun t => w.membership synapse_id t) with
         | some t => [Call.getMembershipStatus synapse_id t]
         | none => [])
    ∧ (get_synapse_user_team_tags w synapse_id roster).1 =
        (match roster.find? (fun t => w.membership synapse_id t) with
         | some t => [⟨"synapse:teamId", t⟩]
         | none => []) := by
  refine ⟨user_team_id_fst_eq_find w synapse_id roster,
          user_team_id_calls_eq w synapse_id roster, ?_⟩
  unfold get_synapse_user_team_tags
  have hfst := user_team_id_fst_eq_find w synapse_id roster
  rcases hres : get_synapse_user_team_id w synapse_id roster with ⟨r, calls⟩
  rw [hres] at hfst
  simp only at hfst
  rw [← hfst]
  cases r <;> simp [tag_key_teamId_eq]

/-- Claim C10: the team tag derivation emits at most one tag, for every
world (so also for rosters with duplicate team identifiers the user is a
member of). -/
theorem C10_at_most_one_team_tag (w : World) (synapse_id : String)
    (roster : List String) :
    (get_synapse_user_team_tags w synapse_id roster).1.length ≤ 1 := by
  unfold get_synapse_user_team_tags
  rcases hres : get_synapse_user_team_id w synapse_id roster with ⟨r, calls⟩
  cases r <;> simp

/-- Claim C1: on the end-to-end create/update scenario (event with
InstanceId i-1, tag query resolving the provisioning principal to bob,
profile [userName = bob], roster [t1], membership true for t1) the handler
succeeds and issues exactly one tag-write call, whose resource list is [i-1]
and whose tag list is the profile-derived tags followed by the team tag, in
the order of the claim. -/
theorem C1_end_to_end :
    create_or_update c1World c1Event () =
      (.ok (), [Call.describeTags "i-1", Call.getUserProfile "bob",
                Call.getParameter (some "/service-catalog/TeamToRoleArnMap"),
                Call.getMembershipStatus "bob" "t1",
                Call.createTags ["i-1"] c1ExpectedTags])
    ∧ (create_or_update c1World c1Event ()).2.filter isCreateTagsCall =
        [Call.createTags ["i-1"] c1ExpectedTags] := ⟨rfl, rfl⟩

/-- Claim C6: for every world and every event whose resource properties lack
a non-empty InstanceId entry (missing key or empty value), create_or_update
fails with the ConfigurationError message InstanceId parameter is required
and issues no outbound call. -/
theorem C6_missing_instance_id (w : World) (event : Event)
    (h : event.ResourceProperties.lookup "InstanceId" = none ∨
         event.ResourceProperties.lookup "InstanceId" = some "") :
    create_or_update w event () =
      (.error (.configurationError "InstanceId parameter is required"), []) := by
  have hid : get_instance_id event =
      .error (.configurationError "InstanceId parameter is required") := by
    rcases h with h | h <;>
      simp [get_instance_id, MISSING_INSTANCE_ID_ERROR_MESSAGE, h]
  unfold create_or_update
  rw [hid]

/-- Claim C6 witness: the theorem applied to an event with an empty resource
properties mapping and to an event with an empty InstanceId value, under the
trivial world. -/
theorem C6_missing_instance_id_witness :
    create_or_update trivialWorld ⟨[]⟩ () =
      (.error (.configurationError "InstanceId parameter is required"), [])
    ∧ create_or_update trivialWorld ⟨[("InstanceId", "")]⟩ () =
        (.error (.configurationError "InstanceId parameter is required"), []) :=
  ⟨C6_missing_instance_id trivialWorld ⟨[]⟩ (Or.inl rfl),
   C6_missing_instance_id trivialWorld ⟨[("InstanceId", "")]⟩ (Or.inr rfl)⟩

/-- Claim C7 counterexample: in the world w7 the roster-parameter setting is
unset; the source forwards the unset (null) name to the parameter store
client, which itself fails client-side (ParamValidationError), so the
roster fetch propagates an upstream failure and does not produce a
ConfigurationError. -/
theorem C7_counterexample :
    get_synapse_team_ids w7 =
      (.error (.upstreamError
         "ParamValidationError: Invalid type for parameter Name, value: None"),
       [Call.getParameter none])
    ∧ isConfigurationErrorResult (get_synapse_team_ids w7).1 = false := ⟨rfl, rfl⟩

/-- Claim C7 (amended): when the environment setting naming the roster
parameter is unset, the roster fetch performs no presence check of its own:
it issues the parameter-store call with the unset (null) name and propagates
the client failure verbatim (for the boto client a client-side
ParamValidationError, an upstream failure, not a ConfigurationError); and
when the parameter is fetched but its value does not parse as the expected
structure, the fetch fails with the propagated DataError of the decoder. -/
theorem C7_roster_fetch_amended (w : World) :
    (w.env "TEAM_TO_ROLE_ARN_MAP_PARAM_NAME" = none →
       (get_synapse_team_ids w).2 = [Call.getParameter none]
       ∧ ∀ e : AppError, w.getParameter none = .error e →
           (get_synapse_team_ids w).1 = .error e)
    ∧ (∀ (name value : String) (m : String),
         w.env "TEAM_TO_ROLE_ARN_MAP_PARAM_NAME" = some name →
         w.getParameter (some name) = .ok value →
         w.loads value = .error (.dataError m) →
         (get_synapse_team_ids w).1 = .error (.dataError m)) := by
  constructor
  · intro henv
    constructor
    · rcases hp : w.getParameter none with e | v
      · simp [get_synapse_team_ids, henv, hp]
      · rcases hl : w.loads v with e | roster
        · simp [get_synapse_team_ids, henv, hp, hl]
        · rcases he : extract_team_ids roster with e | ids <;>
            simp [get_synapse_team_ids, henv, hp, hl, he]
    · intro e he
      simp [get_synapse_team_ids, henv, he]
  · intro name value m henv hp hl
    simp [get_synapse_team_ids, henv, hp, hl]

/-- Claim C7 amended witness: the amended theorem applied to the world w7
(setting unset, client validation failure propagated) and to the world
wParse (setting present, undecodable value, DataError propagated). -/
theorem C7_roster_fetch_amended_witness :
    ((get_synapse_team_ids w7).2 = [Call.getParameter none]
      ∧ (get_synapse_team_ids w7).1 = .error (.upstreamError
          "ParamValidationError: Invalid type for parameter Name, value: None"))
    ∧ (get_synapse_team_ids wParse).1 =
        .error (.dataError "JSONDecodeError: Expecting value") := by
  refine ⟨⟨((C7_roster_fetch_amended w7).1 rfl).1,
          ((C7_roster_fetch_amended w7).1 rfl).2 _ rfl⟩, ?_⟩
  exact (C7_roster_fetch_amended wParse).2 "/service-catalog/TeamToRoleArnMap"
    "oops" "JSONDecodeError: Expecting value" rfl rfl rfl

/-- Claim C8: for every world, instance id and response, if the tag query
succeeds but its Tags field is absent or empty, the tag reader fails with
the DataError carrying the no-tags message rather than returning an empty
list, having issued the one describe call. -/
theorem C8_empty_tag_set (w : World) (instance_id : String)
    (response : DescribeTagsResponse)
    (hresp : w.describeTags instance_id = .ok response)
    (hempty : response.Tags = none ∨ response.Tags = some []) :
    get_instance_tags w instance_id =
      (.error (.dataError ("No tags returned, received: " ++ pyStrResponse response)),
       [Call.describeTags instance_id]) := by
  unfold get_instance_tags
  rw [hresp]
  rcases hempty with h | h <;> simp [h]

/-- Claim C8 witness: the theorem applied to the world whose tag query
returns a successful response with an empty tag list. -/
theorem C8_empty_tag_set_witness :
    get_instance_tags wEmptyTags "i-1" =
      (.error (.dataError ("No tags returned, received: " ++
         pyStrResponse ⟨some []⟩)),
       [Call.describeTags "i-1"]) :=
  C8_empty_tag_set wEmptyTags "i-1" ⟨some []⟩ rfl (Or.inr rfl)

/-- Claim C9: for every event, the delete handler makes no outbound calls
and reports success unconditionally, both directly and through the lifecycle
dispatch. -/
theorem C9_delete_noop (w : World) (event : Event) :
    delete event () = (.ok (), [])
    ∧ handler w RequestType.Delete event = (.ok (), []) := ⟨rfl, rfl⟩
